import Mathlib

/-!
Shallow embedding of the christmas_show Show Runtime Engine:
the channel registry (`gpio_controller.py`), the pattern library
(`patterns.py`), and the scheduler (`show_runner.py`).

Time-driven pattern loops (`while time.time() < end: ...`) are modelled by
an explicit iteration count `fuel : Nat`: the number of times the loop body
runs before the deadline check fails.  A call with `duration = 0` performs
zero iterations (`fuel = 0`); any positive duration admits any `fuel`,
so quantifying over `fuel` covers every duration including `0`.
Numeric (Python float) values are modelled as rationals.
-/

namespace ChristmasShow

/-- The channel registry of `gpio_controller.py` (`GPIOController`):
a mapping from logical channel name to boolean on/off state, represented
as an association list in construction order. -/
structure GPIOController where
  channels : List (String × Bool)
deriving Repr, DecidableEq

/-- `GPIOController.__init__`: every channel is constructed with
`initial_value=False`, i.e. off. -/
def GPIOController.init (names : List String) : GPIOController :=
  ⟨names.map (fun n => (n, false))⟩

/-- Python `name in self.channels` membership test on the registry dict. -/
def GPIOController.hasChannel (g : GPIOController) (name : String) : Bool :=
  g.channels.any (fun p => p.1 == name)

/-- Dict-style update of one channel's state (no-op when absent). -/
def setChannel (chs : List (String × Bool)) (name : String) (v : Bool) :
    List (String × Bool) :=
  chs.map (fun p => if p.1 == name then (p.1, v) else p)

/-- `GPIOController.on`: turn a channel on by name; unknown names are
skipped by the `if name in self.channels` guard. -/
def GPIOController.on (g : GPIOController) (name : String) : GPIOController :=
  if g.hasChannel name then ⟨setChannel g.channels name true⟩ else g

/-- `GPIOController.off`: turn a channel off by name; unknown names are
skipped by the `if name in self.channels` guard. -/
def GPIOController.off (g : GPIOController) (name : String) : GPIOController :=
  if g.hasChannel name then ⟨setChannel g.channels name false⟩ else g

/-- `GPIOController.all_on`: every registered channel on. -/
def GPIOController.all_on (g : GPIOController) : GPIOController :=
  ⟨g.channels.map (fun p => (p.1, true))⟩

/-- `GPIOController.all_off`: every registered channel off. -/
def GPIOController.all_off (g : GPIOController) : GPIOController :=
  ⟨g.channels.map (fun p => (p.1, false))⟩

/-- "Every channel in the registry reports off". -/
def allOffState (g : GPIOController) : Bool :=
  g.channels.all (fun p => p.2 == false)

/-! ## Pattern library (`patterns.py`) -/

/-- `TREE_NAMES` from `patterns.py`. -/
def TREE_NAMES : List String := ["T1", "T2", "T3", "BigTree"]

/-- `BULB_NAMES` from `patterns.py`. -/
def BULB_NAMES : List String := ["B1", "B2", "B3", "B4"]

/-- `_safe_on(gpio, name)`: turn on only when the name is registered. -/
def safe_on (g : GPIOController) (name : String) : GPIOController :=
  if g.hasChannel name then g.on name else g

/-- `_safe_off(gpio, name)`: turn off only when the name is registered. -/
def safe_off (g : GPIOController) (name : String) : GPIOController :=
  if g.hasChannel name then g.off name else g

/-- `patterns.all_off(gpio)`: one-shot, delegates to the registry. -/
def all_off (g : GPIOController) : GPIOController :=
  g.all_off

/-- `patterns.all_on(gpio)`: one-shot, delegates to the registry. -/
def all_on (g : GPIOController) : GPIOController :=
  g.all_on

/-- One `while` iteration of `blink_all`: all off when `state` is truthy,
else all on, then `state` flips. -/
def blink_allLoop (g : GPIOController) (state : Bool) : Nat → GPIOController
  | 0 => g
  | n + 1 =>
      blink_allLoop (if state then g.all_off else g.all_on) (!state) n

/-- `blink_all(gpio, duration, interval)`: alternate all-on / all-off
(starting from `state = False`, so all-on first), then `gpio.all_off()`. -/
def blink_all (g : GPIOController) (fuel : Nat) : GPIOController :=
  (blink_allLoop g false fuel).all_off

/-- One `while` iteration of `alternate_trees_and_bulbs`. -/
def alternateStep (g : GPIOController) (state : Bool) : GPIOController :=
  if state then
    BULB_NAMES.foldl safe_off (TREE_NAMES.foldl safe_on g)
  else
    BULB_NAMES.foldl safe_on (TREE_NAMES.foldl safe_off g)

/-- The `while` loop of `alternate_trees_and_bulbs`. -/
def alternateLoop (g : GPIOController) (state : Bool) : Nat → GPIOController
  | 0 => g
  | n + 1 => alternateLoop (alternateStep g state) (!state) n

/-- `alternate_trees_and_bulbs(gpio, duration, interval)`: trees on / bulbs
off, then trees off / bulbs on, ending with `gpio.all_off()`. -/
def alternate_trees_and_bulbs (g : GPIOController) (fuel : Nat) :
    GPIOController :=
  (alternateLoop g false fuel).all_off

/-- One `while` iteration of `wave_trees` / `wave_all`-style waves:
for each name, `gpio.all_off()` then `_safe_on(gpio, name)`. -/
def waveStep (names : List String) (g : GPIOController) : GPIOController :=
  names.foldl (fun acc name => safe_on acc.all_off name) g

/-- `wave_trees(gpio, duration, step_interval)`: restrict `TREE_NAMES` to
registered channels, return immediately when none remain, otherwise wave
through them and finish with `gpio.all_off()`. -/
def wave_trees (g : GPIOController) (fuel : Nat) : GPIOController :=
  let names := TREE_NAMES.filter (fun n => g.hasChannel n)
  if names.isEmpty then g
  else ((fun h => waveStep names h)^[fuel] g).all_off

/-- The fixed tree/bulb pairing of `wave_all`. -/
def wave_allPairs : List (String × String) :=
  [("T1", "B1"), ("T2", "B2"), ("T3", "B3"), ("BigTree", "B4")]

/-- One `while` iteration of `wave_all`: for each valid pair,
`gpio.all_off()` then `_safe_on` the tree and the bulb. -/
def wave_allStep (pairs : List (String × String)) (g : GPIOController) :
    GPIOController :=
  pairs.foldl (fun acc pr => safe_on (safe_on acc.all_off pr.1) pr.2) g

/-- `wave_all(gpio, duration, step_interval)`: keep only pairs where both
channels exist, return immediately when none remain, otherwise wave through
the pairs and finish with `gpio.all_off()`. -/
def wave_all (g : GPIOController) (fuel : Nat) : GPIOController :=
  let validPairs := wave_allPairs.filter
    (fun pr => g.hasChannel pr.1 && g.hasChannel pr.2)
  if validPairs.isEmpty then g
  else ((fun h => wave_allStep validPairs h)^[fuel] g).all_off

/-- One `while` iteration of `trees_cascade`: `_safe_on` each name in turn,
then `_safe_off` each name in turn. -/
def cascadeStep (names : List String) (g : GPIOController) : GPIOController :=
  names.foldl safe_off (names.foldl safe_on g)

/-- `trees_cascade(gpio, duration, step_interval)`: restrict `TREE_NAMES`
to registered channels, return immediately when none remain, otherwise
cascade on then off, finishing with `gpio.all_off()`. -/
def trees_cascade (g : GPIOController) (fuel : Nat) : GPIOController :=
  let names := TREE_NAMES.filter (fun n => g.hasChannel n)
  if names.isEmpty then g
  else ((fun h => cascadeStep names h)^[fuel] g).all_off

/-- The `while` loop of `chase_bulbs`, carrying the rotating index `idx`. -/
def chaseLoop (names : List String) (g : GPIOController) (idx : Nat) :
    Nat → GPIOController
  | 0 => g
  | n + 1 =>
      chaseLoop names
        (safe_on g.all_off (names.getD (idx % names.length) ""))
        (idx + 1) n

/-- `chase_bulbs(gpio, duration, step_interval)`: restrict `BULB_NAMES` to
registered channels, return immediately when none remain, otherwise light
exactly one bulb per step in rotation, finishing with `gpio.all_off()`. -/
def chase_bulbs (g : GPIOController) (fuel : Nat) : GPIOController :=
  let names := BULB_NAMES.filter (fun n => g.hasChannel n)
  if names.isEmpty then g
  else (chaseLoop names g 0 fuel).all_off

/-- One `while` iteration of `sparkle`: for every registered channel name
(with its index `j`), `_safe_on` when the random draw is below
`on_fraction` (modelled by the oracle `rand i j`), else `_safe_off`. -/
def sparkleStep (allNames : List String) (draw : Nat → Bool)
    (g : GPIOController) : GPIOController :=
  (allNames.enum.foldl
    (fun acc p => if draw p.1 then safe_on acc p.2 else safe_off acc p.2) g)

/-- The `while` loop of `sparkle`, with `rand i j` the outcome of the
`random.random() < on_fraction` draw at iteration `i`, channel index `j`. -/
def sparkleLoop (allNames : List String) (rand : Nat → Nat → Bool)
    (g : GPIOController) (i : Nat) : Nat → GPIOController
  | 0 => g
  | n + 1 =>
      sparkleLoop allNames rand (sparkleStep allNames (rand i) g) (i + 1) n

/-- `sparkle(gpio, duration, interval, on_fraction)`: over all registered
channel names; return immediately when the registry is empty, otherwise
randomize each channel per tick, finishing with `gpio.all_off()`. -/
def sparkle (g : GPIOController) (rand : Nat → Nat → Bool) (fuel : Nat) :
    GPIOController :=
  let allNames := g.channels.map (fun p => p.1)
  if allNames.isEmpty then g
  else (sparkleLoop allNames rand g 0 fuel).all_off

/-- `finale_flash(gpio, duration, interval)`: strobe all-on/all-off
(starting from `state = False`, so all-on first), then hold everything on,
then `gpio.all_off()`. -/
def finale_flash (g : GPIOController) (fuel : Nat) : GPIOController :=
  ((blink_allLoop g false fuel).all_on).all_off

/-! ## Beat/time normalizer (`show_runner.py`) -/

/-- `beats_to_seconds(beats, bpm)`: `(beats / bpm) * 60.0`; raises
`ValueError("Invalid BPM: ...")` — the spec's `InvalidTempoError` — when
`bpm <= 0`. -/
def beats_to_seconds (beats bpm : ℚ) : Except String ℚ :=
  if bpm ≤ 0 then .error "Invalid BPM" else .ok (beats / bpm * 60)

/-- The key test of `convert_beat_intervals`:
`key.endswith('_interval') or key == 'interval'`.  The Python `endswith`
is the suffix test on the key's character sequence. -/
def intervalKey (key : String) : Bool :=
  "_interval".data.isSuffixOf key.data || key == "interval"

/-- The `for key, value in options.items()` loop of
`convert_beat_intervals`, carrying the `converted` accumulator. -/
def convertLoop (bpm : ℚ) (conv : List (String × ℚ)) :
    List (String × ℚ) → Except String (List (String × ℚ))
  | [] => .ok conv
  | kv :: rest =>
      if intervalKey kv.1 then
        match beats_to_seconds kv.2 bpm with
        | .error e => .error e
        | .ok v => convertLoop bpm (conv ++ [(kv.1, v)]) rest
      else
        convertLoop bpm (conv ++ [kv]) rest

/-- `convert_beat_intervals(options, bpm)`: build a new mapping where
interval-named keys get `beats_to_seconds(value, bpm)` and every other key
keeps its value; a `ValueError` from `beats_to_seconds` propagates. -/
def convert_beat_intervals (options : List (String × ℚ)) (bpm : ℚ) :
    Except String (List (String × ℚ)) :=
  convertLoop bpm [] options

/-! ## Python call semantics of pattern dispatch (`patterns.py` defs,
`show_runner.py` line 131) -/

/-- The keyword-bindable parameters (beyond the positional registry
argument) of each function published by `patterns.py`, read off the `def`
lines.  No pattern declares a `**kwargs` catch-all. -/
def patternParams : List (String × List String) :=
  [("all_off", []),
   ("all_on", []),
   ("blink_all", ["duration", "interval"]),
   ("alternate_trees_and_bulbs", ["duration", "interval"]),
   ("wave_trees", ["duration", "step_interval"]),
   ("wave_all", ["duration", "step_interval"]),
   ("trees_cascade", ["duration", "step_interval"]),
   ("chase_bulbs", ["duration", "step_interval"]),
   ("sparkle", ["duration", "interval", "on_fraction"]),
   ("finale_flash", ["duration", "interval"])]

/-- The pattern names the library publishes (the `hasattr` targets). -/
def patternNames : List String :=
  patternParams.map (fun p => p.1)

/-- Python binding of `pattern_func(gpio, duration=duration, **args)`:
the call raises no `TypeError` iff `duration` is not also among the
option keys (no duplicate keyword) and every supplied keyword is a
declared parameter of the function. -/
def schedulerCallOk (name : String) (optionKeys : List String) : Bool :=
  match patternParams.find? (fun p => p.1 == name) with
  | none => false
  | some p =>
      !(optionKeys.contains "duration") &&
      ("duration" :: optionKeys).all (fun k => p.2.contains k)

/-! ## Show scheduler (`run_show` in `show_runner.py`) -/

/-- A pattern body as invoked by the scheduler: given the registry, the
segment's duration and its normalized options, it either returns the new
registry state or raises. -/
def PatternBody : Type :=
  GPIOController → ℚ → List (String × ℚ) → Except String GPIOController

/-- A timeline segment (one entry of the show's `sections`). -/
structure Segment where
  pattern : String
  start : ℚ
  end_ : ℚ
  options : List (String × ℚ)

/-- The loaded show configuration: its `sections` and optional `bpm`. -/
structure ShowConfig where
  sections : List Segment
  bpm : Option ℚ

/-- Observable scheduler state: the registry, which startup effects have
happened, the reporter's stop flag, the warning lines and dispatched
pattern names in order, and the elapsed playback clock. -/
structure RunState where
  gpio : GPIOController
  audioStarted : Bool
  reporterStarted : Bool
  stopFlagSet : Bool
  warnings : List String
  dispatched : List String
  clock : ℚ
deriving Repr

/-- The dispatch loop of `run_show` (lines 104-131): per section, skip
when `end - start <= 0` before any waiting; otherwise busy-wait until the
clock reaches `start`, normalize options when a bpm is set (an error there
propagates), warn and skip when the pattern name is not in the library,
else invoke the pattern (blocking for `duration`), propagating any error
it raises. -/
def runSections (lib : String → Option PatternBody) (bpm : Option ℚ) :
    List Segment → RunState → Except String Unit × RunState
  | [], s => (.ok (), s)
  | sec :: rest, s =>
      let duration := sec.end_ - sec.start
      if duration ≤ 0 then
        runSections lib bpm rest s
      else
        let s1 := { s with clock := max s.clock sec.start }
        match
          (match bpm with
           | none => (.ok sec.options : Except String (List (String × ℚ)))
           | some b => convert_beat_intervals sec.options b) with
        | .error e => (.error e, s1)
        | .ok args =>
            match lib sec.pattern with
            | none =>
                runSections lib bpm rest
                  { s1 with warnings := s1.warnings ++ [sec.pattern] }
            | some body =>
                match body s1.gpio duration args with
                | .error e =>
                    (.error e,
                     { s1 with dispatched := s1.dispatched ++ [sec.pattern] })
                | .ok g2 =>
                    runSections lib bpm rest
                      { s1 with
                          gpio := g2,
                          dispatched := s1.dispatched ++ [sec.pattern],
                          clock := s1.clock + duration }

/-- The `finally` block of `run_show` (lines 137-146): `gpio.all_off()`
and `stop_event.set()`. -/
def cleanup (s : RunState) : RunState :=
  { s with gpio := s.gpio.all_off, stopFlagSet := true }

/-- `run_show` from the point after the startup tempo report: start audio
(`play_song`, which raises `FileNotFoundError` when the file is missing —
before the `try`, so without cleanup), spawn the timestamp reporter, then
run the dispatch loop under `try ... finally`. -/
def run_showAfterTempo (lib : String → Option PatternBody)
    (shw : ShowConfig) (audioOk : Bool) (s0 : RunState) :
    Except String Unit × RunState :=
  if audioOk then
    let s1 := { s0 with audioStarted := true, reporterStarted := true }
    let res := runSections lib shw.bpm shw.sections s1
    (res.1, cleanup res.2)
  else
    (.error "Audio file not found", s0)

/-- `run_show(show)` (lines 73-146): construct the registry (all channels
off), emit the startup tempo report — which calls `beats_to_seconds(1, bpm)`
when a bpm is declared and so raises before audio, reporter, or any
dispatch when `bpm <= 0` — then hand over to the post-tempo stages. -/
def run_show (lib : String → Option PatternBody) (names : List String)
    (shw : ShowConfig) (audioOk : Bool) : Except String Unit × RunState :=
  let s0 : RunState :=
    { gpio := GPIOController.init names,
      audioStarted := false, reporterStarted := false, stopFlagSet := false,
      warnings := [], dispatched := [], clock := 0 }
  match shw.bpm with
  | some b =>
      match beats_to_seconds 1 b with
      | .error e => (.error e, s0)
      | .ok _ => run_showAfterTempo lib shw audioOk s0
  | none => run_showAfterTempo lib shw audioOk s0

/-! ## Helper lemmas -/

/-- `all_off()` leaves every registered channel reporting off. -/
theorem allOffState_all_off (g : GPIOController) :
    allOffState g.all_off = true := by
  simp [allOffState, GPIOController.all_off, List.all_map, Function.comp]

/-- A freshly constructed registry has every channel off. -/
theorem allOffState_init (names : List String) :
    allOffState (GPIOController.init names) = true := by
  simp [allOffState, GPIOController.init, List.all_map, Function.comp]

/-- `wave_trees` ends in `gpio.all_off()` whenever its group is nonempty. -/
theorem wave_trees_allOff (g : GPIOController) (n : Nat)
    (h : (TREE_NAMES.filter (fun nm => g.hasChannel nm)).isEmpty = false) :
    allOffState (wave_trees g n) = true := by
  simp [wave_trees, h, allOffState_all_off]

/-- `wave_all` ends in `gpio.all_off()` whenever a valid pair remains. -/
theorem wave_all_allOff (g : GPIOController) (n : Nat)
    (h : (wave_allPairs.filter
      (fun pr => g.hasChannel pr.1 && g.hasChannel pr.2)).isEmpty = false) :
    allOffState (wave_all g n) = true := by
  simp [wave_all, h, allOffState_all_off]

/-- `trees_cascade` ends in `gpio.all_off()` whenever its group is
nonempty. -/
theorem trees_cascade_allOff (g : GPIOController) (n : Nat)
    (h : (TREE_NAMES.filter (fun nm => g.hasChannel nm)).isEmpty = false) :
    allOffState (trees_cascade g n) = true := by
  simp [trees_cascade, h, allOffState_all_off]

/-- `chase_bulbs` ends in `gpio.all_off()` whenever its group is
nonempty. -/
theorem chase_bulbs_allOff (g : GPIOController) (n : Nat)
    (h : (BULB_NAMES.filter (fun nm => g.hasChannel nm)).isEmpty = false) :
    allOffState (chase_bulbs g n) = true := by
  simp [chase_bulbs, h, allOffState_all_off]

/-- `sparkle` ends in `gpio.all_off()` whenever the registry is
nonempty. -/
theorem sparkle_allOff (g : GPIOController) (rand : Nat → Nat → Bool)
    (n : Nat) (h : (g.channels.map (fun p => p.1)).isEmpty = false) :
    allOffState (sparkle g rand n) = true := by
  simp [sparkle, h, allOffState_all_off]

/-- The accumulator-passing loop of `convert_beat_intervals`, resolved
for a positive bpm. -/
theorem convert_loop_ok (bpm : ℚ) (h : 0 < bpm)
    (options acc : List (String × ℚ)) :
    convertLoop bpm acc options =
      .ok (acc ++ options.map (fun kv =>
        if intervalKey kv.1 then (kv.1, kv.2 / bpm * 60) else kv)) := by
  induction options generalizing acc with
  | nil => simp [convertLoop]
  | cons kv rest ih =>
      by_cases hk : intervalKey kv.1
      · simp [convertLoop, hk, beats_to_seconds, not_le.mpr h, ih]
      · simp [convertLoop, hk, ih]

/-- A successful Python keyword call: the name resolves to declared
parameters containing every supplied keyword, `duration` is declared, and
`duration` is not doubly supplied. -/
theorem schedulerCallOk_of (name : String) (params keys : List String)
    (hfind : patternParams.find? (fun p => p.1 == name) = some (name, params))
    (hdur : params.contains "duration" = true)
    (hkeys : ∀ k ∈ keys, params.contains k = true ∧ k ≠ "duration") :
    schedulerCallOk name keys = true := by
  unfold schedulerCallOk
  rw [hfind]
  have h1 : keys.contains "duration" = false := by
    cases hc : keys.contains "duration"
    · rfl
    · exact absurd rfl (hkeys _ (List.elem_iff.mp hc)).2
  rw [h1]
  simp only [Bool.not_false, Bool.true_and, List.all_cons, Bool.and_eq_true,
    List.all_eq_true]
  exact ⟨hdur, fun k hk => (hkeys k hk).1⟩

/-! ## Claims -/

/-- C1 (amended): every pattern in the library other than `all_on` leaves
every channel in the registry reporting off after a normal return, for
every registry, random draw and iteration count (a duration of `0` is the
iteration count `0`) — provided, for the group-driven patterns, that the
configured group resolves to at least one registered channel. -/
theorem patterns_leave_all_off (g : GPIOController)
    (rand : Nat → Nat → Bool) (n : Nat) :
    allOffState (all_off g) = true ∧
    allOffState (blink_all g n) = true ∧
    allOffState (alternate_trees_and_bulbs g n) = true ∧
    allOffState (finale_flash g n) = true ∧
    ((TREE_NAMES.filter (fun nm => g.hasChannel nm)).isEmpty = false →
      allOffState (wave_trees g n) = true) ∧
    ((wave_allPairs.filter
        (fun pr => g.hasChannel pr.1 && g.hasChannel pr.2)).isEmpty = false →
      allOffState (wave_all g n) = true) ∧
    ((TREE_NAMES.filter (fun nm => g.hasChannel nm)).isEmpty = false →
      allOffState (trees_cascade g n) = true) ∧
    ((BULB_NAMES.filter (fun nm => g.hasChannel nm)).isEmpty = false →
      allOffState (chase_bulbs g n) = true) ∧
    ((g.channels.map (fun p => p.1)).isEmpty = false →
      allOffState (sparkle g rand n) = true) := by
  refine ⟨?_, ?_, ?_, ?_, fun h => wave_trees_allOff g n h,
    fun h => wave_all_allOff g n h, fun h => trees_cascade_allOff g n h,
    fun h => chase_bulbs_allOff g n h, fun h => sparkle_allOff g rand n h⟩
  · simp [all_off, allOffState_all_off]
  · simp [blink_all, allOffState_all_off]
  · simp [alternate_trees_and_bulbs, allOffState_all_off]
  · simp [finale_flash, allOffState_all_off]

/-- Claim C1 as frozen is false: `all_on` is a pattern routine of the
library and returns with every channel on, and `wave_trees` invoked
against a registry with no tree channels returns with a pre-lit bulb
still on. -/
theorem patterns_leave_all_off_cex :
    allOffState (all_on (GPIOController.init ["T1", "B1"])) = false ∧
    wave_trees ⟨[("B1", true)]⟩ 5 = ⟨[("B1", true)]⟩ ∧
    allOffState ⟨[("B1", true)]⟩ = false := by decide

/-- Witness for C1: a two-channel registry, tree group nonempty. -/
theorem patterns_leave_all_off_witness :
    allOffState (wave_trees (GPIOController.init ["T1", "B1"]) 2) = true ∧
    allOffState
      (sparkle (GPIOController.init ["T1", "B1"]) (fun _ _ => true) 2)
      = true :=
  ⟨(patterns_leave_all_off (GPIOController.init ["T1", "B1"])
      (fun _ _ => true) 2).2.2.2.2.1 (by decide),
   (patterns_leave_all_off (GPIOController.init ["T1", "B1"])
      (fun _ _ => true) 2).2.2.2.2.2.2.2.2 (by decide)⟩

/-- C2 (amended): every time-driven pattern accepts the scheduler's call
`pattern_func(gpio, duration=duration, **args)` for any option keys drawn
from its declared parameters; the one-shot patterns `all_off` and `all_on`
declare no `duration` parameter, so the scheduler call raises `TypeError`
for them. -/
theorem scheduler_call_contract :
    (∀ keys : List String,
      (∀ k ∈ keys, (["duration", "interval"].contains k) = true ∧
        k ≠ "duration") →
      schedulerCallOk "blink_all" keys = true) ∧
    (∀ keys : List String,
      (∀ k ∈ keys, (["duration", "interval"].contains k) = true ∧
        k ≠ "duration") →
      schedulerCallOk "alternate_trees_and_bulbs" keys = true) ∧
    (∀ keys : List String,
      (∀ k ∈ keys, (["duration", "step_interval"].contains k) = true ∧
        k ≠ "duration") →
      schedulerCallOk "wave_trees" keys = true) ∧
    (∀ keys : List String,
      (∀ k ∈ keys, (["duration", "step_interval"].contains k) = true ∧
        k ≠ "duration") →
      schedulerCallOk "wave_all" keys = true) ∧
    (∀ keys : List String,
      (∀ k ∈ keys, (["duration", "step_interval"].contains k) = true ∧
        k ≠ "duration") →
      schedulerCallOk "trees_cascade" keys = true) ∧
    (∀ keys : List String,
      (∀ k ∈ keys, (["duration", "step_interval"].contains k) = true ∧
        k ≠ "duration") →
      schedulerCallOk "chase_bulbs" keys = true) ∧
    (∀ keys : List String,
      (∀ k ∈ keys,
        (["duration", "interval", "on_fraction"].contains k) = true ∧
        k ≠ "duration") →
      schedulerCallOk "sparkle" keys = true) ∧
    (∀ keys : List String,
      (∀ k ∈ keys, (["duration", "interval"].contains k) = true ∧
        k ≠ "duration") →
      schedulerCallOk "finale_flash" keys = true) ∧
    schedulerCallOk "all_off" [] = false ∧
    schedulerCallOk "all_on" [] = false := by
  refine ⟨fun keys hk => schedulerCallOk_of _ _ keys (by decide) (by decide) hk,
    fun keys hk => schedulerCallOk_of _ _ keys (by decide) (by decide) hk,
    fun keys hk => schedulerCallOk_of _ _ keys (by decide) (by decide) hk,
    fun keys hk => schedulerCallOk_of _ _ keys (by decide) (by decide) hk,
    fun keys hk => schedulerCallOk_of _ _ keys (by decide) (by decide) hk,
    fun keys hk => schedulerCallOk_of _ _ keys (by decide) (by decide) hk,
    fun keys hk => schedulerCallOk_of _ _ keys (by decide) (by decide) hk,
    fun keys hk => schedulerCallOk_of _ _ keys (by decide) (by decide) hk,
    by decide, by decide⟩

/-- Claim C2 as frozen is false: `all_off` is in the library, yet the
scheduler's call with the `duration` keyword (and an empty options
mapping) raises `TypeError`, since `def all_off(gpio)` declares no such
parameter. -/
theorem scheduler_call_contract_cex :
    ("all_off" ∈ patternNames) ∧ schedulerCallOk "all_off" [] = false := by
  decide

/-- Witness for C2: `blink_all` called with `duration` and `interval`. -/
theorem scheduler_call_contract_witness :
    schedulerCallOk "blink_all" ["interval"] = true :=
  scheduler_call_contract.1 ["interval"] (by decide)

/-- C3: for `bpm > 0`, `beats_to_seconds` returns `(beats / bpm) * 60`
and is linear in `beats`; `beats_to_seconds(1, 60) = 1.0`; for
`bpm <= 0` it raises (the `ValueError` realising the spec's
`InvalidTempoError`). -/
theorem beats_to_seconds_spec (beats bpm : ℚ) :
    (0 < bpm → beats_to_seconds beats bpm = .ok (beats / bpm * 60)) ∧
    (0 < bpm → ∀ x y c : ℚ,
      beats_to_seconds (x + c * y) bpm =
        .ok (x / bpm * 60 + c * (y / bpm * 60))) ∧
    beats_to_seconds 1 60 = .ok 1 ∧
    (bpm ≤ 0 → beats_to_seconds beats bpm = .error "Invalid BPM") := by
  refine ⟨fun h => ?_, fun h x y c => ?_, ?_, fun h => ?_⟩
  · simp [beats_to_seconds, not_le.mpr h]
  · simp only [beats_to_seconds, if_neg (not_le.mpr h)]
    congr 1
    ring
  · norm_num [beats_to_seconds]
  · simp [beats_to_seconds, h]

/-- Witness for C3: two beats at 60 bpm are two seconds; bpm `-5`
raises. -/
theorem beats_to_seconds_spec_witness :
    beats_to_seconds 2 60 = .ok 2 ∧
    beats_to_seconds 1 (-5) = .error "Invalid BPM" := by
  constructor
  · have h := (beats_to_seconds_spec 2 60).1 (by norm_num)
    rw [h]
    norm_num
  · exact (beats_to_seconds_spec 1 (-5)).2.2.2 (by norm_num)

/-- C4: for `bpm > 0`, normalization converts exactly the keys equal to
`"interval"` or ending in `"_interval"` via `beats_to_seconds` and keeps
every other key's value; in particular
`normalize({"interval": 2, "color": 5}, 120) = {"interval": 1.0,
"color": 5}`. -/
theorem convert_beat_intervals_spec (options : List (String × ℚ))
    (bpm : ℚ) (h : 0 < bpm) :
    convert_beat_intervals options bpm =
      .ok (options.map (fun kv =>
        if intervalKey kv.1 then (kv.1, kv.2 / bpm * 60) else kv)) ∧
    convert_beat_intervals [("interval", 2), ("color", 5)] 120 =
      .ok [("interval", 1), ("color", 5)] := by
  constructor
  · simpa [convert_beat_intervals] using convert_loop_ok bpm h options []
  · have h2 := convert_loop_ok 120 (by norm_num)
      [("interval", (2 : ℚ)), ("color", 5)] []
    simp only [convert_beat_intervals]
    rw [h2]
    norm_num [show intervalKey "interval" = true from by decide,
      show intervalKey "color" = false from by decide]

/-- Witness for C4: a `_interval`-suffixed key converts, `color` does
not. -/
theorem convert_beat_intervals_spec_witness :
    convert_beat_intervals [("beat_interval", 3), ("color", 7)] 60 =
      .ok [("beat_interval", 3), ("color", 7)] := by
  have h := (convert_beat_intervals_spec
    [("beat_interval", (3 : ℚ)), ("color", 7)] 60 (by norm_num)).1
  rw [h]
  norm_num [show intervalKey "beat_interval" = true from by decide,
    show intervalKey "color" = false from by decide]

/-- C5: whenever the dispatch loop is reached (tempo report succeeded and
audio started), the `finally` cleanup leaves every channel off and the
reporter's stop flag set — for every library (hence for normal
completion, unknown-pattern skips, and pattern bodies that raise). -/
theorem cleanup_always_runs (lib : String → Option PatternBody)
    (names : List String) (shw : ShowConfig)
    (h : shw.bpm = none ∨ ∃ b, shw.bpm = some b ∧ 0 < b) :
    (run_show lib names shw true).2.stopFlagSet = true ∧
    allOffState (run_show lib names shw true).2.gpio = true := by
  have hc : ∀ s0 : RunState,
      (run_showAfterTempo lib shw true s0).2.stopFlagSet = true ∧
      allOffState (run_showAfterTempo lib shw true s0).2.gpio = true := by
    intro s0
    simp [run_showAfterTempo, cleanup, allOffState_all_off]
  rcases h with h | ⟨b, hb, hbpos⟩
  · simp only [run_show, h]
    exact hc _
  · have he : beats_to_seconds 1 b = .ok (1 / b * 60) := by
      simp [beats_to_seconds, not_le.mpr hbpos]
    simp only [run_show, hb, he]
    exact hc _

/-- Witness for C5: an empty show with no declared tempo. -/
theorem cleanup_always_runs_witness :
    (run_show (fun _ => none) ["T1"] ⟨[], none⟩ true).2.stopFlagSet
      = true ∧
    allOffState (run_show (fun _ => none) ["T1"] ⟨[], none⟩ true).2.gpio
      = true :=
  cleanup_always_runs (fun _ => none) ["T1"] ⟨[], none⟩ (Or.inl rfl)

/-- C6 (amended): for every segment with positive duration whose pattern
name is absent from the library, the scheduler logs a warning and
advances to the next segment, invoking nothing and advancing the clock
only to the segment's start, never its end (zero-duration segments are
skipped silently beforehand, without a warning). -/
theorem unknown_pattern_skip (lib : String → Option PatternBody)
    (bpm : Option ℚ) (sec : Segment) (rest : List Segment) (s : RunState)
    (hdur : 0 < sec.end_ - sec.start)
    (hbpm : bpm = none ∨ ∃ b, bpm = some b ∧ 0 < b)
    (hmiss : lib sec.pattern = none) :
    runSections lib bpm (sec :: rest) s =
      runSections lib bpm rest
        { s with clock := max s.clock sec.start,
                 warnings := s.warnings ++ [sec.pattern] } := by
  have hd : ¬(sec.end_ - sec.start ≤ 0) := not_le.mpr hdur
  rcases hbpm with h | ⟨b, hb, hbpos⟩
  · simp [runSections, hd, h, hmiss]
  · simp [runSections, hd, hb, hmiss, convert_beat_intervals,
      convert_loop_ok b hbpos]

/-- Claim C6 as frozen is false: a zero-duration segment naming an
unknown pattern is skipped with no warning emitted. -/
theorem unknown_pattern_skip_cex :
    (runSections (fun _ => none) none
        [⟨"nonexistent", 1, 1, []⟩]
        ⟨GPIOController.init ["T1"], true, true, false, [], [], 0⟩).2.warnings
      = [] := by
  have hd : (1 : ℚ) - 1 ≤ 0 := by norm_num
  simp [runSections, hd]

/-- Witness for C6: a positive-duration segment naming `nonexistent`. -/
theorem unknown_pattern_skip_witness :
    runSections (fun _ => none) none [⟨"nonexistent", 0, 2, []⟩]
        ⟨GPIOController.init ["T1"], true, true, false, [], [], 0⟩ =
      runSections (fun _ => none) none []
        ⟨GPIOController.init ["T1"], true, true, false, ["nonexistent"],
          [], 0⟩ := by
  have h := unknown_pattern_skip (fun _ => none) none
    ⟨"nonexistent", 0, 2, []⟩ []
    ⟨GPIOController.init ["T1"], true, true, false, [], [], 0⟩
    (by norm_num) (Or.inl rfl) rfl
  simpa using h

/-- C7: a segment with `end <= start` is skipped before the busy-wait:
the scheduler proceeds to the remaining segments with the state — clock
included — completely unchanged. -/
theorem zero_duration_skip (lib : String → Option PatternBody)
    (bpm : Option ℚ) (sec : Segment) (rest : List Segment) (s : RunState)
    (h : sec.end_ ≤ sec.start) :
    runSections lib bpm (sec :: rest) s = runSections lib bpm rest s := by
  have hd : sec.end_ - sec.start ≤ 0 := sub_nonpos.mpr h
  simp [runSections, hd]

/-- Witness for C7: a segment ending before it starts. -/
theorem zero_duration_skip_witness :
    runSections (fun _ => none) none [⟨"blink_all", 5, 3, []⟩]
        ⟨GPIOController.init ["T1"], true, true, false, [], [], 0⟩ =
      runSections (fun _ => none) none []
        ⟨GPIOController.init ["T1"], true, true, false, [], [], 0⟩ :=
  zero_duration_skip _ _ _ _ _ (by norm_num)

/-- C8: `on`/`off` with an unregistered name never fail and change
nothing; invoking `wave_trees` against the subset registry `{T1, B1}`
(though the pattern also references `T2`, `T3`, `BigTree`) returns with
the present channels in the pattern's defined end state: off. -/
theorem missing_channel_no_op (g : GPIOController) (name : String)
    (n : Nat) (h : g.hasChannel name = false) :
    g.on name = g ∧ g.off name = g ∧
    allOffState (wave_trees (GPIOController.init ["T1", "B1"]) n) = true := by
  refine ⟨?_, ?_, wave_trees_allOff _ n (by decide)⟩
  · simp [GPIOController.on, h]
  · simp [GPIOController.off, h]

/-- Witness for C8: name `T2` against the registry `{T1, B1}`. -/
theorem missing_channel_no_op_witness :
    (GPIOController.init ["T1", "B1"]).on "T2"
        = GPIOController.init ["T1", "B1"] ∧
    (GPIOController.init ["T1", "B1"]).off "T2"
        = GPIOController.init ["T1", "B1"] ∧
    allOffState (wave_trees (GPIOController.init ["T1", "B1"]) 3) = true :=
  missing_channel_no_op (GPIOController.init ["T1", "B1"]) "T2" 3
    (by decide)

/-- C9: each group-driven pattern returns immediately with the registry
unchanged when its configured group resolves to zero registered
channels. -/
theorem empty_group_returns_unchanged (g : GPIOController)
    (rand : Nat → Nat → Bool) (n : Nat) :
    ((TREE_NAMES.filter (fun nm => g.hasChannel nm)).isEmpty = true →
      wave_trees g n = g) ∧
    ((wave_allPairs.filter
        (fun pr => g.hasChannel pr.1 && g.hasChannel pr.2)).isEmpty = true →
      wave_all g n = g) ∧
    ((TREE_NAMES.filter (fun nm => g.hasChannel nm)).isEmpty = true →
      trees_cascade g n = g) ∧
    ((BULB_NAMES.filter (fun nm => g.hasChannel nm)).isEmpty = true →
      chase_bulbs g n = g) ∧
    ((g.channels.map (fun p => p.1)).isEmpty = true →
      sparkle g rand n = g) := by
  refine ⟨fun h => ?_, fun h => ?_, fun h => ?_, fun h => ?_, fun h => ?_⟩
  · simp [wave_trees, h]
  · simp [wave_all, h]
  · simp [trees_cascade, h]
  · simp [chase_bulbs, h]
  · simp [sparkle, h]

/-- Witness for C9: the empty registry resolves every group to zero
channels. -/
theorem empty_group_returns_unchanged_witness :
    wave_trees ⟨[]⟩ 4 = ⟨[]⟩ ∧ wave_all ⟨[]⟩ 4 = ⟨[]⟩ ∧
    trees_cascade ⟨[]⟩ 4 = ⟨[]⟩ ∧ chase_bulbs ⟨[]⟩ 4 = ⟨[]⟩ ∧
    sparkle ⟨[]⟩ (fun _ _ => false) 4 = ⟨[]⟩ := by
  have h := empty_group_returns_unchanged ⟨[]⟩ (fun _ _ => false) 4
  exact ⟨h.1 (by decide), h.2.1 (by decide), h.2.2.1 (by decide),
    h.2.2.2.1 (by decide), h.2.2.2.2 (by decide)⟩

/-- C10: a declared tempo `bpm <= 0` makes `run_show` raise at the
startup tempo report — before audio starts, before the reporter spawns,
before any segment dispatch — leaving every channel off (fresh registry,
never turned on). -/
theorem invalid_bpm_aborts (lib : String → Option PatternBody)
    (names : List String) (shw : ShowConfig) (audioOk : Bool) (b : ℚ)
    (hb : shw.bpm = some b) (hble : b ≤ 0) :
    run_show lib names shw audioOk =
      (.error "Invalid BPM",
       { gpio := GPIOController.init names, audioStarted := false,
         reporterStarted := false, stopFlagSet := false,
         warnings := [], dispatched := [], clock := 0 }) ∧
    allOffState (run_show lib names shw audioOk).2.gpio = true := by
  have he : beats_to_seconds 1 b = .error "Invalid BPM" := by
    simp [beats_to_seconds, hble]
  have h1 : run_show lib names shw audioOk =
      (.error "Invalid BPM",
       { gpio := GPIOController.init names, audioStarted := false,
         reporterStarted := false, stopFlagSet := false,
         warnings := [], dispatched := [], clock := 0 }) := by
    simp [run_show, hb, he]
  refine ⟨h1, ?_⟩
  rw [h1]
  simpa using allOffState_init names

/-- Witness for C10: tempo `0`, one pending segment, audio available. -/
theorem invalid_bpm_aborts_witness :
    run_show (fun _ => none) ["T1"] ⟨[⟨"blink_all", 0, 2, []⟩], some 0⟩
        true =
      (.error "Invalid BPM",
       ⟨GPIOController.init ["T1"], false, false, false, [], [], 0⟩) ∧
    allOffState ((run_show (fun _ => none) ["T1"]
        ⟨[⟨"blink_all", 0, 2, []⟩], some 0⟩ true).2.gpio) = true :=
  invalid_bpm_aborts _ _ _ _ 0 rfl (by norm_num)

end ChristmasShow
